import Mathlib

/-!
Verification development for the AdminWebook webhook relay.

The definitions below are a shallow embedding of the repository's core
pipeline:

* `onRequestPost` embeds the inbound webhook dispatcher of
  `functions/api/v1/webhook/[[path]].ts` (config lookup, handshake
  detection, HMAC-SHA1 signature check, active-flag gate, provider
  resolution, fire-and-forget provider execution with background
  logging, outer catch-all).
* `logEvent`-style ring-buffer updates (`logEventUpdate`,
  `deviceHistoryUpdate`, `recentUpdate`, `uniqueDevicesUpdate`,
  `recordIncr`, `statsUpdate`, `analyticsPost`) embed the KV log writer
  of the same file and the analytics ingestor of
  `functions/api/v1/appwallet/analytics.ts`.
* `chatbotbuilderExecute` embeds the `chatbotbuilder` provider's
  `execute` of `functions/providers/index.ts`.

External effects are made explicit: the KV store is passed in as the
previously stored values and returned as the values written; outbound
HTTP (`fetch`) outcomes and the HMAC-SHA1 primitive are parameters
(`Except`-valued I/O outcomes, and an abstract `String → String →
List (Fin 256)` digest function).  JavaScript `undefined`-able string
values are `Option String`, with JS truthiness (`undefined`/`null`/`""`
are falsy) modelled by `jsTruthy`.
-/

/-- JS truthiness of a string-or-undefined value: `undefined`, `null`
and `""` are falsy, every other string is truthy. -/
def jsTruthy : Option String → Bool
  | none => false
  | some s => !(s == "")

/-- JS `x || d` for a string-or-undefined `x` and a (truthy) string
default `d`: yields `x`'s value when truthy, otherwise `d`. -/
def jsOrStr (x : Option String) (d : String) : String :=
  match x with
  | some s => if s == "" then d else s
  | none => d

/-- The string content of a string-or-undefined value; `undefined`
becomes the empty body (as in `new Response(undefined)`). -/
def jsStrOrEmpty (x : Option String) : String := x.getD ""

/-- JS `s.substring(0, n)`: the first `n` characters of `s` (all of `s`
when it is shorter). -/
def jsSubstring (s : String) (n : Nat) : String := String.mk (s.toList.take n)

/-- JS `Number.prototype.toString(16)` on a natural number: minimal-length
lowercase hexadecimal digits (`"0"` for zero). -/
def natToHex (n : Nat) : String := String.mk (Nat.toDigits 16 n)

/-- JS `s.padStart(2, "0")`: left-pad with `'0'` to length 2. -/
def padStart2 (s : String) : String :=
  if s.length ≥ 2 then s else String.mk (List.replicate (2 - s.length) '0') ++ s

/-- One byte of the digest, as the source renders it:
`b.toString(16).padStart(2, "0")`. -/
def byteToHex (b : Fin 256) : String := padStart2 (natToHex b.val)

/-- Hex rendering of an HMAC digest, as the source renders it:
`Array.from(new Uint8Array(sig)).map(b => b.toString(16).padStart(2, "0")).join("")`. -/
def hexEncode (bs : List (Fin 256)) : String := String.join (bs.map byteToHex)

/-- Modelled from the spec's words ("the lowercase hex encoding"): the
standard two-lowercase-hex-digits-per-byte encoding, written
independently of the source's rendering for the refinement in C1. -/
def specLowercaseHexByte (b : Fin 256) : String :=
  String.mk [(Nat.digitChar (b.val / 16)), (Nat.digitChar (b.val % 16))]

/-- Modelled from the spec's words: lowercase hex encoding of a byte
string, to be compared with the source-side `hexEncode`. -/
def specLowercaseHex (bs : List (Fin 256)) : String :=
  String.join (bs.map specLowercaseHexByte)

/-- The `data` field of an inbound event envelope (free-form in the
source; the fields the dispatcher reads are modelled). -/
structure EventPayload where
  token : Option String
  passSerialNumber : Option String
  serialNumber : Option String
deriving DecidableEq, Repr

/-- A parsed inbound event envelope: `const { type, data } = eventData`. -/
structure EventData where
  type : Option String
  data : Option EventPayload
deriving DecidableEq, Repr

/-- A stored webhook configuration (`webhook:{id}` KV value). -/
structure WebhookConfig where
  businessName : String
  secretKey : String
  provider : Option String
  apiToken : Option String
  customFieldId : Option String
  flowId : Option String
  isActive : Bool
  lastEventAt : Option String
  lastEventType : Option String
  lastEventStatus : Option String
deriving DecidableEq, Repr

/-- One entry of the per-webhook event log (`logs:{id}` KV value). -/
structure LogEntry where
  time : String
  type : Option String
  status : String
  message : String
  provider : Option String
  passSerial : Option String
deriving DecidableEq, Repr

/-- An HTTP response: status code, body text, optional Content-Type. -/
structure HttpResponse where
  status : Nat
  body : String
  contentType : Option String
deriving DecidableEq, Repr

/-- The result object a provider's `execute` resolves with. -/
structure ProviderResult where
  success : Bool
  message : String
deriving DecidableEq, Repr

/-- The observable outcome of one dispatcher run: the HTTP response,
the log entries written (foreground or via `waitUntil`), whether the
resolved provider's `execute` was invoked, and the updated config
written back (when any). -/
structure DispatchResult where
  response : HttpResponse
  logs : List LogEntry
  providerCalled : Bool
  configPut : Option WebhookConfig
deriving DecidableEq, Repr

/-- `logEvent` of `[[path]].ts`: unshift the new entry, then
`if (logs.length > 10) logs.length = 10`. -/
def logEventUpdate (logs : List LogEntry) (entry : LogEntry) : List LogEntry :=
  let l := entry :: logs
  if l.length > 10 then l.take 10 else l

/-- The provider registry's key set (`providers` table of
`functions/providers/index.ts`). -/
def registryNames : List String :=
  ["chatbotbuilder", "custom_http", "zapier", "make", "slack", "n8n", "whatsapp"]

/-- `getProvider` of `functions/providers/index.ts`, restricted to
whether the name resolves (the definition itself is keyed lookup). -/
def getProviderExists (name : String) : Bool := registryNames.contains name

/-- Handshake detection of `[[path]].ts` line 42:
`type === "webhook.verify" || (!type && data?.token)`. -/
def isVerifyEvent (ev : EventData) : Bool :=
  ev.type == some "webhook.verify" ||
    (!jsTruthy ev.type && jsTruthy (ev.data.bind (fun d => d.token)))

/-- `data?.passSerialNumber || data?.serialNumber || null` of
`[[path]].ts` line 135. -/
def passSerialOf (ev : EventData) : Option String :=
  match ev.data with
  | none => none
  | some d =>
    if jsTruthy d.passSerialNumber then d.passSerialNumber
    else if jsTruthy d.serialNumber then d.serialNumber
    else none

/-- The fixed accepted-response body of `[[path]].ts` line 156:
`JSON.stringify(\x7bsuccess: true, message: "Evento recibido, procesando..."\x7d)`. -/
def acceptedBody : String :=
  "\x7b\"success\":true,\"message\":\"Evento recibido, procesando...\"\x7d"

/-- The webhook dispatcher `onRequestPost` of
`functions/api/v1/webhook/[[path]].ts` (first revision in the file,
lines 21-165).  Abstractions: the KV read of `webhook:{id}` is the
`configRaw` argument; `crypto.subtle` HMAC-SHA1 over the UTF-8 bytes of
`secretKey`/`bodyText` is the abstract `hmac` argument returning the
digest bytes; the awaited outcome of the resolved provider's
`execute` is `execOutcome` (`Except.error` = the promise rejected, which
the background block catches at lines 144-152); `now` is the
`new Date().toISOString()` timestamp.  The outer `try`/`catch` is the
explicit 500 case: reading `data.token` of an undefined `data` in the
verify branch throws, after the ok log was already scheduled. -/
def onRequestPost (hmac : String → String → List (Fin 256)) (now : String)
    (configRaw : Option WebhookConfig) (bodyText : String) (ev : EventData)
    (signature : Option String) (execOutcome : Except String ProviderResult) :
    DispatchResult :=
  match configRaw with
  | none =>
    { response := ⟨404, "Configuración de Webhook no encontrada.", none⟩,
      logs := [], providerCalled := false, configPut := none }
  | some config =>
    if isVerifyEvent ev then
      let verifyLog : LogEntry :=
        ⟨now, some "webhook.verify", "ok", "Verificación de webhook exitosa", none, none⟩
      match ev.data with
      | none =>
        { response := ⟨500, "Error interno del servidor.", none⟩,
          logs := [verifyLog], providerCalled := false, configPut := none }
      | some d =>
        { response := ⟨200, jsStrOrEmpty d.token, some "text/plain"⟩,
          logs := [verifyLog], providerCalled := false, configPut := none }
    else if !jsTruthy signature then
      { response := ⟨401, "No signature provided", none⟩,
        logs := [⟨now, some (jsOrStr ev.type "unknown"), "error", "Sin firma HMAC", none, none⟩],
        providerCalled := false, configPut := none }
    else
      let sig := jsStrOrEmpty signature
      let digest := "sha1=" ++ hexEncode (hmac config.secretKey bodyText)
      if sig != digest then
        { response := ⟨403, "Invalid signature", none⟩,
          logs := [⟨now, some (jsOrStr ev.type "unknown"), "error", "Firma HMAC inválida", none, none⟩],
          providerCalled := false, configPut := none }
      else if !config.isActive then
        { response := ⟨403, "Este webhook está inactivo.", none⟩,
          logs := [⟨now, ev.type, "blocked", "Webhook inactivo", none, none⟩],
          providerCalled := false, configPut := none }
      else
        let providerName := jsOrStr config.provider "chatbotbuilder"
        if !getProviderExists providerName then
          { response := ⟨400, "Provider \"" ++ providerName ++ "\" no soportado.", none⟩,
            logs := [⟨now, ev.type, "error",
                      "Provider \"" ++ providerName ++ "\" no encontrado", none, none⟩],
            providerCalled := false, configPut := none }
        else
          match execOutcome with
          | .ok result =>
            { response := ⟨200, acceptedBody, some "application/json"⟩,
              logs := [⟨now, ev.type, if result.success then "ok" else "error",
                        result.message, some providerName, passSerialOf ev⟩],
              providerCalled := true,
              configPut := some { config with
                lastEventAt := some now, lastEventType := ev.type,
                lastEventStatus := some (if result.success then "ok" else "error") } }
          | .error emsg =>
            { response := ⟨200, acceptedBody, some "application/json"⟩,
              logs := [⟨now, ev.type, "error", "Error en provider: " ++ emsg,
                        some providerName, none⟩],
              providerCalled := true, configPut := none }

/-- A generic JSON object value (only compared for identity; the
analytics `metadata` blob is opaque to the code). -/
structure JsObject where
  fields : List (String × String)
deriving DecidableEq, Repr

/-- The parsed analytics request body
`\x7beventName, deviceId, timestamp?, metadata?\x7d`. -/
structure AnalyticsData where
  eventName : Option String
  deviceId : Option String
  timestamp : Option String
  metadata : Option JsObject
deriving DecidableEq, Repr

/-- One entry of the per-device history (`appwallet:device:{id}`). -/
structure DeviceEntry where
  eventName : String
  timestamp : String
  metadata : JsObject
  receivedAt : String
deriving DecidableEq, Repr

/-- One entry of the global recent-events list (`appwallet:recent`). -/
structure RecentEntry where
  eventName : String
  deviceId : String
  timestamp : String
  receivedAt : String
deriving DecidableEq, Repr

/-- The global analytics aggregates (`appwallet:stats`); `eventCounts`
is the JS object as an insertion-ordered association list. -/
structure AnalyticsStats where
  totalEvents : Nat
  uniqueDevices : List String
  eventCounts : List (String × Nat)
  lastUpdated : String
deriving DecidableEq, Repr

/-- The JSON body of an analytics response, by its fields. -/
structure AnalyticsBody where
  status : String
  message : Option String
  received : Option String
  deviceId : Option String
deriving DecidableEq, Repr

/-- The observable outcome of one analytics POST: HTTP status, response
body, and the three KV values written (`none` = no write). -/
structure AnalyticsOutcome where
  status : Nat
  body : AnalyticsBody
  deviceHistoryPut : Option (List DeviceEntry)
  statsPut : Option AnalyticsStats
  recentPut : Option (List RecentEntry)
deriving DecidableEq, Repr

/-- Device-history update of `analytics.ts` lines 54-61: unshift, then
`if (deviceEvents.length > 50) deviceEvents.length = 50`. -/
def deviceHistoryUpdate (events : List DeviceEntry) (e : DeviceEntry) : List DeviceEntry :=
  let l := e :: events
  if l.length > 50 then l.take 50 else l

/-- `stats.eventCounts[k] = (stats.eventCounts[k] || 0) + 1` on a JS
object: bump an existing key in place, else append the new key. -/
def recordIncr (m : List (String × Nat)) (k : String) : List (String × Nat) :=
  if m.any (fun p => p.1 == k) then
    m.map (fun p => if p.1 == k then (p.1, p.2 + 1) else p)
  else m ++ [(k, 1)]

/-- Unique-device tracking of `analytics.ts` lines 77-83: if absent,
`push` to the end, then `slice(-1000)` when the length exceeds 1000. -/
def uniqueDevicesUpdate (devices : List String) (id : String) : List String :=
  if devices.contains id then devices
  else
    let d := devices ++ [id]
    if d.length > 1000 then d.drop (d.length - 1000) else d

/-- Global-stats update of `analytics.ts` lines 64-86. -/
def statsUpdate (statsRaw : Option AnalyticsStats) (now eventName deviceId : String) :
    AnalyticsStats :=
  let stats := statsRaw.getD ⟨0, [], [], now⟩
  { totalEvents := stats.totalEvents + 1,
    uniqueDevices := uniqueDevicesUpdate stats.uniqueDevices deviceId,
    eventCounts := recordIncr stats.eventCounts eventName,
    lastUpdated := now }

/-- Recent-events update of `analytics.ts` lines 93-100: unshift, then
`if (recentEvents.length > 100) recentEvents.length = 100`. -/
def recentUpdate (events : List RecentEntry) (e : RecentEntry) : List RecentEntry :=
  let l := e :: events
  if l.length > 100 then l.take 100 else l

/-- The analytics ingestor `onRequestPost` of
`functions/api/v1/appwallet/analytics.ts`.  Abstractions: JSON parsing
of the request body is the `body` argument (`Except.error` = parse
threw, answered by the catch with 400 "Invalid JSON"); the prior KV
values are the `*Raw` arguments and the written values are returned;
`now` is the timestamp. -/
def analyticsPost (now : String) (body : Except String AnalyticsData)
    (deviceRaw : Option (List DeviceEntry)) (statsRaw : Option AnalyticsStats)
    (recentRaw : Option (List RecentEntry)) : AnalyticsOutcome :=
  match body with
  | .error _ =>
    ⟨400, ⟨"error", some "Invalid JSON", none, none⟩, none, none, none⟩
  | .ok data =>
    if !jsTruthy data.eventName || !jsTruthy data.deviceId then
      ⟨400, ⟨"error", some "Se requiere eventName y deviceId", none, none⟩, none, none, none⟩
    else
      let eventName := jsStrOrEmpty data.eventName
      let deviceId := jsStrOrEmpty data.deviceId
      let deviceEvents := deviceRaw.getD []
      let newDeviceEvents := deviceHistoryUpdate deviceEvents
        ⟨eventName, jsOrStr data.timestamp now, data.metadata.getD ⟨[]⟩, now⟩
      let newStats := statsUpdate statsRaw now eventName deviceId
      let recentEvents := recentRaw.getD []
      let newRecent := recentUpdate recentEvents
        ⟨eventName, jsSubstring deviceId 8 ++ "...", jsOrStr data.timestamp now, now⟩
      ⟨200, ⟨"success", none, some eventName, some (jsSubstring deviceId 8 ++ "...")⟩,
        some newDeviceEvents, some newStats, some newRecent⟩

/-- A ChatbotBuilder user record as read from the find-by-custom-field
response (`userData.data[0].id`). -/
structure CbUser where
  id : String
deriving DecidableEq, Repr

/-- The parsed JSON of the find-by-custom-field response: `data` may be
absent (falsy) or an array of users. -/
structure CbUserData where
  data : Option (List CbUser)
deriving DecidableEq, Repr

deriving instance DecidableEq for Except

/-- The awaited find-by-custom-field `fetch` response; `json` is the
outcome of `await userResponse.json()` (`Except.error` = it rejected). -/
structure CbFetchResp where
  json : Except String CbUserData
deriving DecidableEq, Repr

/-- The `chatbotbuilder` provider's config fields. -/
structure CbConfig where
  apiToken : String
  customFieldId : String
  flowId : String
deriving DecidableEq, Repr

/-- The `chatbotbuilder` provider's `execute` of
`functions/providers/index.ts` lines 39-62.  The two `fetch` calls are
the `fetchFind`/`fetchSend` arguments (`Except.error` = the fetch
promise rejected).  The function body has no `try`/`catch`, so a
rejected `await` propagates as `Except.error` out of `execute`. -/
def chatbotbuilderExecute (fetchFind : Except String CbFetchResp)
    (fetchSend : Except String Unit) (eventData : EventData) (config : CbConfig) :
    Except String ProviderResult :=
  let passSerialNumber := eventData.data.bind (fun d => d.passSerialNumber)
  if !jsTruthy passSerialNumber then
    .ok ⟨false, "passSerialNumber no encontrado en el evento"⟩
  else
    match fetchFind with
    | .error e => .error e
    | .ok resp =>
      match resp.json with
      | .error e => .error e
      | .ok userData =>
        match userData.data with
        | none =>
          .ok ⟨false, "Usuario no encontrado con CUF " ++ jsStrOrEmpty passSerialNumber⟩
        | some [] =>
          .ok ⟨false, "Usuario no encontrado con CUF " ++ jsStrOrEmpty passSerialNumber⟩
        | some (u :: _) =>
          match fetchSend with
          | .error e => .error e
          | .ok _ =>
            .ok ⟨true, "Flujo " ++ config.flowId ++ " enviado al usuario " ++ u.id⟩

/-- Equality scan underlying the modelled string comparison: compares
character by character, stopping at the first mismatch. -/
def scanEqList : List Char → List Char → Bool
  | [], [] => true
  | a :: as, b :: bs => a == b && scanEqList as bs
  | _, _ => false

/-- Character comparisons performed by the short-circuit scan before it
decides (after an equal-length check): the position of the first
mismatch plus one, or the full length when the lists are equal. -/
def scanSteps : List Char → List Char → Nat
  | a :: as, b :: bs => 1 + (if a == b then scanSteps as bs else 0)
  | _, _ => 0

/-- The canonical sequential evaluation of the JS string comparison at
`[[path]].ts` line 77 (`signature !== digest`, here its equality): a
length check followed by a left-to-right short-circuit character scan. -/
def jsStrEqModel (a b : String) : Bool :=
  a.length == b.length && scanEqList a.toList b.toList

/-- Character comparisons the short-circuit comparison performs on the
given pair of strings (its data-dependent cost). -/
def jsStrEqSteps (a b : String) : Nat :=
  if a.length == b.length then scanSteps a.toList b.toList else 0

set_option maxRecDepth 4096 in
theorem byteToHex_eq_spec : ∀ b : Fin 256, byteToHex b = specLowercaseHexByte b := by decide

theorem hexEncode_eq_specLowercaseHex (bs : List (Fin 256)) :
    hexEncode bs = specLowercaseHex bs := by
  have h : byteToHex = specLowercaseHexByte := funext byteToHex_eq_spec
  unfold hexEncode specLowercaseHex
  rw [h]

theorem sha1_append_ne_empty (s : String) : ("sha1=" ++ s) ≠ "" := by
  intro h
  have hlen := congrArg String.length h
  rw [String.length_append] at hlen
  rw [show ("sha1=" : String).length = 5 from rfl, show ("" : String).length = 0 from rfl] at hlen
  omega

/-- C1: for a POST whose config exists, whose event is not a handshake
and whose `x-passslot-signature` header is present (a non-empty header
string), verification succeeds exactly when the header equals `"sha1="`
followed by the lowercase hex encoding of HMAC-SHA1(secretKey, raw
body): on a match the dispatcher never answers 403 "Invalid signature"
nor 401, on a mismatch it answers 403 "Invalid signature" and writes
one log entry of status `error`, and with the header absent it answers
401 and writes one log entry of status `error`. -/
theorem c1_signature_verification
    (hmac : String → String → List (Fin 256)) (now : String)
    (config : WebhookConfig) (bodyText : String) (ev : EventData)
    (sig : String) (execOut : Except String ProviderResult)
    (hverify : isVerifyEvent ev = false) (hne : sig ≠ "") :
    (sig = "sha1=" ++ specLowercaseHex (hmac config.secretKey bodyText) →
      (onRequestPost hmac now (some config) bodyText ev (some sig) execOut).response ≠
        ⟨403, "Invalid signature", none⟩ ∧
      (onRequestPost hmac now (some config) bodyText ev (some sig) execOut).response.status ≠ 401) ∧
    (sig ≠ "sha1=" ++ specLowercaseHex (hmac config.secretKey bodyText) →
      (onRequestPost hmac now (some config) bodyText ev (some sig) execOut).response =
        ⟨403, "Invalid signature", none⟩ ∧
      (onRequestPost hmac now (some config) bodyText ev (some sig) execOut).logs =
        [⟨now, some (jsOrStr ev.type "unknown"), "error", "Firma HMAC inválida", none, none⟩]) ∧
    ((onRequestPost hmac now (some config) bodyText ev none execOut).response =
        ⟨401, "No signature provided", none⟩ ∧
      (onRequestPost hmac now (some config) bodyText ev none execOut).logs =
        [⟨now, some (jsOrStr ev.type "unknown"), "error", "Sin firma HMAC", none, none⟩]) := by
  have hbeq : (sig == "") = false := beq_eq_false_iff_ne.mpr hne
  have hdig : hexEncode (hmac config.secretKey bodyText) =
      specLowercaseHex (hmac config.secretKey bodyText) := hexEncode_eq_specLowercaseHex _
  refine ⟨?_, ?_, ?_⟩
  · intro heq
    subst heq
    simp only [onRequestPost, hverify, jsTruthy, hbeq, jsStrOrEmpty, Option.getD, hdig,
      Bool.not_false, bne_self_eq_false]
    repeat' split
    all_goals simp_all [HttpResponse.mk.injEq]
  · intro hneq
    have hb : (sig != "sha1=" ++ hexEncode (hmac config.secretKey bodyText)) = true := by
      rw [hdig]
      exact bne_iff_ne.mpr hneq
    simp only [onRequestPost, hverify, jsTruthy, hbeq, jsStrOrEmpty, Option.getD,
      Bool.not_false, hb]
    simp
  · simp only [onRequestPost, hverify, jsTruthy, Bool.not_false]
    simp

/-- Witness for C1: a concrete config, event and digest, exercised on a
matching header, a mismatching header, and a missing header. -/
theorem c1_signature_verification_witness :
    ((onRequestPost (fun _ _ => [(171 : Fin 256)]) "T0"
        (some ⟨"Biz", "sk", none, none, none, none, true, none, none, none⟩)
        "body" ⟨some "pass.updated", none⟩ (some "sha1=ab") (.ok ⟨true, "m"⟩)).response ≠
      ⟨403, "Invalid signature", none⟩) ∧
    ((onRequestPost (fun _ _ => [(171 : Fin 256)]) "T0"
        (some ⟨"Biz", "sk", none, none, none, none, true, none, none, none⟩)
        "body" ⟨some "pass.updated", none⟩ (some "sha1=ff") (.ok ⟨true, "m"⟩)).response =
      ⟨403, "Invalid signature", none⟩) ∧
    ((onRequestPost (fun _ _ => [(171 : Fin 256)]) "T0"
        (some ⟨"Biz", "sk", none, none, none, none, true, none, none, none⟩)
        "body" ⟨some "pass.updated", none⟩ none (.ok ⟨true, "m"⟩)).response =
      ⟨401, "No signature provided", none⟩) :=
  ⟨((c1_signature_verification (fun _ _ => [(171 : Fin 256)]) "T0"
      ⟨"Biz", "sk", none, none, none, none, true, none, none, none⟩ "body"
      ⟨some "pass.updated", none⟩ "sha1=ab" (.ok ⟨true, "m"⟩)
      (by decide) (by decide)).1 (by decide)).1,
    ((c1_signature_verification (fun _ _ => [(171 : Fin 256)]) "T0"
      ⟨"Biz", "sk", none, none, none, none, true, none, none, none⟩ "body"
      ⟨some "pass.updated", none⟩ "sha1=ff" (.ok ⟨true, "m"⟩)
      (by decide) (by decide)).2.1 (by decide)).1,
    ((c1_signature_verification (fun _ _ => [(171 : Fin 256)]) "T0"
      ⟨"Biz", "sk", none, none, none, none, true, none, none, none⟩ "body"
      ⟨some "pass.updated", none⟩ "x" (.ok ⟨true, "m"⟩)
      (by decide) (by decide)).2.2).1⟩

/-- C2: an inbound event detected as the verification handshake (type
equal to `"webhook.verify"`, or no truthy type together with a truthy
`data.token`) whose `data.token` is readable skips signature
verification: the dispatcher writes one log entry of status `ok` and
responds 200 with body exactly `data.token` as `text/plain`, never
invoking a provider, for every secret key and every (or no) signature
header. -/
theorem c2_handshake_echo
    (hmac : String → String → List (Fin 256)) (now : String)
    (config : WebhookConfig) (bodyText : String) (ev : EventData)
    (signature : Option String) (execOut : Except String ProviderResult)
    (d : EventPayload) (tok : String)
    (hv : isVerifyEvent ev = true) (hd : ev.data = some d) (ht : d.token = some tok) :
    (onRequestPost hmac now (some config) bodyText ev signature execOut).response =
      ⟨200, tok, some "text/plain"⟩ ∧
    (onRequestPost hmac now (some config) bodyText ev signature execOut).logs =
      [⟨now, some "webhook.verify", "ok", "Verificación de webhook exitosa", none, none⟩] ∧
    (onRequestPost hmac now (some config) bodyText ev signature execOut).providerCalled =
      false := by
  simp [onRequestPost, hv, hd, ht, jsStrOrEmpty]

/-- Witness for C2: a handshake event with token `"abc123"`, an absent
signature header and an unrelated secret key echoes the token. -/
theorem c2_handshake_echo_witness :
    (onRequestPost (fun _ _ => [(171 : Fin 256)]) "T0"
        (some ⟨"Biz", "sk", none, none, none, none, true, none, none, none⟩)
        "body" ⟨some "webhook.verify", some ⟨some "abc123", none, none⟩⟩ none
        (.ok ⟨true, "m"⟩)).response = ⟨200, "abc123", some "text/plain"⟩ :=
  (c2_handshake_echo (fun _ _ => [(171 : Fin 256)]) "T0"
    ⟨"Biz", "sk", none, none, none, none, true, none, none, none⟩ "body"
    ⟨some "webhook.verify", some ⟨some "abc123", none, none⟩⟩ none (.ok ⟨true, "m"⟩)
    ⟨some "abc123", none, none⟩ "abc123" (by decide) rfl rfl).1

/-- C9: an event whose type is `"webhook.verify"` but whose body has no
`data` field is detected as a handshake, yet reading `data.token`
throws; the outer catch answers with the generic 500 response, not a
200 handshake echo. -/
theorem c9_verify_without_data
    (hmac : String → String → List (Fin 256)) (now : String)
    (config : WebhookConfig) (bodyText : String) (ev : EventData)
    (signature : Option String) (execOut : Except String ProviderResult)
    (h1 : ev.type = some "webhook.verify") (h2 : ev.data = none) :
    (onRequestPost hmac now (some config) bodyText ev signature execOut).response =
      ⟨500, "Error interno del servidor.", none⟩ ∧
    (onRequestPost hmac now (some config) bodyText ev signature execOut).response.status ≠
      200 ∧
    (onRequestPost hmac now (some config) bodyText ev signature execOut).providerCalled =
      false := by
  have hv : isVerifyEvent ev = true := by
    simp [isVerifyEvent, h1]
  simp [onRequestPost, hv, h2]

/-- Witness for C9: the concrete body `{"type":"webhook.verify"}` with
no `data` field gets the 500 response. -/
theorem c9_verify_without_data_witness :
    (onRequestPost (fun _ _ => [(171 : Fin 256)]) "T0"
        (some ⟨"Biz", "sk", none, none, none, none, true, none, none, none⟩)
        "body" ⟨some "webhook.verify", none⟩ none (.ok ⟨true, "m"⟩)).response =
      ⟨500, "Error interno del servidor.", none⟩ :=
  (c9_verify_without_data (fun _ _ => [(171 : Fin 256)]) "T0"
    ⟨"Biz", "sk", none, none, none, none, true, none, none, none⟩ "body"
    ⟨some "webhook.verify", none⟩ none (.ok ⟨true, "m"⟩) rfl rfl).1

/-- Counterexample for C3: an inactive config receiving a non-handshake
event with no signature header answers 401 (not 403-equivalent) and
writes a log entry of status `error` (not `blocked`): the signature
checks run before the active-flag gate. -/
theorem c3_counterexample :
    (⟨"Biz", "sk", none, none, none, none, false, none, none, none⟩ :
        WebhookConfig).isActive = false ∧
    isVerifyEvent ⟨some "pass.updated", none⟩ = false ∧
    (onRequestPost (fun _ _ => [(171 : Fin 256)]) "T0"
        (some ⟨"Biz", "sk", none, none, none, none, false, none, none, none⟩)
        "body" ⟨some "pass.updated", none⟩ none (.ok ⟨true, "m"⟩)).response =
      ⟨401, "No signature provided", none⟩ ∧
    (onRequestPost (fun _ _ => [(171 : Fin 256)]) "T0"
        (some ⟨"Biz", "sk", none, none, none, none, false, none, none, none⟩)
        "body" ⟨some "pass.updated", none⟩ none (.ok ⟨true, "m"⟩)).logs =
      [⟨"T0", some "pass.updated", "error", "Sin firma HMAC", none, none⟩] := by
  decide

/-- C3 as amended: for every config with `isActive = false`, no
provider `execute` is ever invoked and no config update is written,
whatever the event; and a non-handshake event that passes signature
verification (header present and equal to the computed digest) receives
the 403 "Este webhook está inactivo." response with exactly one log
entry of status `blocked`.  (Events failing the signature checks of an
inactive config receive 401/403 with `error` logs instead.) -/
theorem c3_inactive_blocked
    (hmac : String → String → List (Fin 256)) (now : String)
    (config : WebhookConfig) (bodyText : String) (ev : EventData)
    (signature : Option String) (execOut : Except String ProviderResult)
    (hinactive : config.isActive = false) :
    (onRequestPost hmac now (some config) bodyText ev signature execOut).providerCalled =
      false ∧
    (onRequestPost hmac now (some config) bodyText ev signature execOut).configPut =
      none ∧
    (isVerifyEvent ev = false →
      signature = some ("sha1=" ++ hexEncode (hmac config.secretKey bodyText)) →
      (onRequestPost hmac now (some config) bodyText ev signature execOut).response =
        ⟨403, "Este webhook está inactivo.", none⟩ ∧
      (onRequestPost hmac now (some config) bodyText ev signature execOut).logs =
        [⟨now, ev.type, "blocked", "Webhook inactivo", none, none⟩]) := by
  have hdg := sha1_append_ne_empty (hexEncode (hmac config.secretKey bodyText))
  refine ⟨?_, ?_, ?_⟩
  · simp only [onRequestPost]
    repeat' split
    all_goals simp_all
  · simp only [onRequestPost]
    repeat' split
    all_goals simp_all
  · intro hverify hsig
    subst hsig
    simp [onRequestPost, hverify, jsTruthy, jsStrOrEmpty,
      beq_eq_false_iff_ne.mpr hdg, hinactive]

/-- Witness for C3 as amended: a concrete inactive config with a
matching signature gets the blocked 403 and no provider call. -/
theorem c3_inactive_blocked_witness :
    (onRequestPost (fun _ _ => [(171 : Fin 256)]) "T0"
        (some ⟨"Biz", "sk", none, none, none, none, false, none, none, none⟩)
        "body" ⟨some "pass.updated", none⟩ (some "sha1=ab")
        (.ok ⟨true, "m"⟩)).providerCalled = false ∧
    (onRequestPost (fun _ _ => [(171 : Fin 256)]) "T0"
        (some ⟨"Biz", "sk", none, none, none, none, false, none, none, none⟩)
        "body" ⟨some "pass.updated", none⟩ (some "sha1=ab")
        (.ok ⟨true, "m"⟩)).response = ⟨403, "Este webhook está inactivo.", none⟩ ∧
    (onRequestPost (fun _ _ => [(171 : Fin 256)]) "T0"
        (some ⟨"Biz", "sk", none, none, none, none, false, none, none, none⟩)
        "body" ⟨some "pass.updated", none⟩ (some "sha1=ab")
        (.ok ⟨true, "m"⟩)).logs =
      [⟨"T0", some "pass.updated", "blocked", "Webhook inactivo", none, none⟩] := by
  have h := c3_inactive_blocked (fun _ _ => [(171 : Fin 256)]) "T0"
    ⟨"Biz", "sk", none, none, none, none, false, none, none, none⟩ "body"
    ⟨some "pass.updated", none⟩ (some "sha1=ab") (.ok ⟨true, "m"⟩) rfl
  exact ⟨h.1, (h.2.2 (by decide) (by decide)).1, (h.2.2 (by decide) (by decide)).2⟩

/-- C6: a non-handshake event with a matching signature, an active
config and a resolvable provider whose `execute` resolves with
`success: false` is logged with status `error` carrying the provider's
message, the config's `lastEventStatus` is set to `"error"`, and the
sender has already received the 200 accepted response, not an error
code. -/
theorem c6_provider_failure_accepted
    (hmac : String → String → List (Fin 256)) (now : String)
    (config : WebhookConfig) (bodyText : String) (ev : EventData) (msg : String)
    (hverify : isVerifyEvent ev = false) (hactive : config.isActive = true)
    (hprov : getProviderExists (jsOrStr config.provider "chatbotbuilder") = true) :
    (onRequestPost hmac now (some config) bodyText ev
        (some ("sha1=" ++ hexEncode (hmac config.secretKey bodyText)))
        (.ok ⟨false, msg⟩)).response = ⟨200, acceptedBody, some "application/json"⟩ ∧
    (onRequestPost hmac now (some config) bodyText ev
        (some ("sha1=" ++ hexEncode (hmac config.secretKey bodyText)))
        (.ok ⟨false, msg⟩)).logs =
      [⟨now, ev.type, "error", msg, some (jsOrStr config.provider "chatbotbuilder"),
        passSerialOf ev⟩] ∧
    (onRequestPost hmac now (some config) bodyText ev
        (some ("sha1=" ++ hexEncode (hmac config.secretKey bodyText)))
        (.ok ⟨false, msg⟩)).configPut =
      some { config with
              lastEventAt := some now, lastEventType := ev.type,
              lastEventStatus := some "error" } ∧
    (onRequestPost hmac now (some config) bodyText ev
        (some ("sha1=" ++ hexEncode (hmac config.secretKey bodyText)))
        (.ok ⟨false, msg⟩)).providerCalled = true := by
  have hdg := sha1_append_ne_empty (hexEncode (hmac config.secretKey bodyText))
  simp [onRequestPost, hverify, jsTruthy, jsStrOrEmpty,
    beq_eq_false_iff_ne.mpr hdg, hactive, hprov]

/-- Witness for C6: a concrete `custom_http` config whose provider
reports a downstream HTTP 500 failure still answers 200 and logs the
provider's message with status `error`. -/
theorem c6_provider_failure_accepted_witness :
    (onRequestPost (fun _ _ => [(171 : Fin 256)]) "T0"
        (some ⟨"Biz", "sk", some "custom_http", none, none, none, true, none, none, none⟩)
        "body" ⟨some "pass.updated", some ⟨none, some "SN1", none⟩⟩ (some "sha1=ab")
        (.ok ⟨false, "Tu webhook respondió HTTP 500: boom"⟩)).response =
      ⟨200, acceptedBody, some "application/json"⟩ ∧
    (onRequestPost (fun _ _ => [(171 : Fin 256)]) "T0"
        (some ⟨"Biz", "sk", some "custom_http", none, none, none, true, none, none, none⟩)
        "body" ⟨some "pass.updated", some ⟨none, some "SN1", none⟩⟩ (some "sha1=ab")
        (.ok ⟨false, "Tu webhook respondió HTTP 500: boom"⟩)).logs =
      [⟨"T0", some "pass.updated", "error", "Tu webhook respondió HTTP 500: boom",
        some "custom_http", some "SN1"⟩] ∧
    (onRequestPost (fun _ _ => [(171 : Fin 256)]) "T0"
        (some ⟨"Biz", "sk", some "custom_http", none, none, none, true, none, none, none⟩)
        "body" ⟨some "pass.updated", some ⟨none, some "SN1", none⟩⟩ (some "sha1=ab")
        (.ok ⟨false, "Tu webhook respondió HTTP 500: boom"⟩)).configPut =
      some ⟨"Biz", "sk", some "custom_http", none, none, none, true, some "T0",
        some "pass.updated", some "error"⟩ := by
  have h := c6_provider_failure_accepted (fun _ _ => [(171 : Fin 256)]) "T0"
    ⟨"Biz", "sk", some "custom_http", none, none, none, true, none, none, none⟩ "body"
    ⟨some "pass.updated", some ⟨none, some "SN1", none⟩⟩
    "Tu webhook respondió HTTP 500: boom" (by decide) rfl (by decide)
  exact ⟨h.1, h.2.1, h.2.2.1⟩

theorem take_append_take {α : Type} (l m : List α) (n : Nat) :
    (l ++ m.take n).take n = (l ++ m).take n := by
  rw [List.take_append_eq_append_take, List.take_append_eq_append_take, List.take_take,
    Nat.min_eq_left (Nat.sub_le n l.length)]

theorem logEventUpdate_eq_take (logs : List LogEntry) (e : LogEntry) :
    logEventUpdate logs e = (e :: logs).take 10 := by
  simp only [logEventUpdate]
  split
  · rfl
  · exact (List.take_of_length_le (by omega)).symm

theorem foldl_logEventUpdate (es : List LogEntry) (acc : List LogEntry)
    (hacc : acc.length ≤ 10) :
    es.foldl logEventUpdate acc = (es.reverse ++ acc).take 10 := by
  induction es generalizing acc with
  | nil => simp [List.take_of_length_le hacc]
  | cons e es ih =>
    rw [List.foldl_cons, logEventUpdate_eq_take,
      ih ((e :: acc).take 10) (by simp),
      take_append_take, List.reverse_cons, List.append_assoc]
    rfl

theorem head?_capped {α : Type} (a : α) (l : List α) (cap : Nat) (h : 0 < cap) :
    ((a :: l).take cap).head? = some a := by
  cases cap with
  | zero => omega
  | succ n => rw [List.take_succ_cons]; rfl

/-- Counterexample for C5: the unique-device list does not keep the
newest entry first — inserting `"devB"` after `"devA"` appends it at
the end (`push`), so the head of the buffer is the oldest entry. -/
theorem c5_counterexample :
    uniqueDevicesUpdate (uniqueDevicesUpdate [] "devA") "devB" = ["devA", "devB"] ∧
    (uniqueDevicesUpdate (uniqueDevicesUpdate [] "devA") "devB").head? ≠ some "devB" := by
  decide

/-- C5 as amended: every persisted ring buffer respects its cap after
any number of insertions — the per-webhook log never exceeds 10, the
per-device history 50, the global recent list 100, each with the newest
entry first, and the unique-device list never exceeds 1000 (but it
appends the newest device at the end and evicts from the front); after
an 11th insertion into an initially empty webhook log the length is
exactly 10, the buffer is the reverse of the insertions truncated to
10 (so the new entry is at the head and the oldest entry of the
truncation is evicted). -/
theorem c5_ring_buffer_caps
    (wlogs : List LogEntry) (e : LogEntry) (devs : List DeviceEntry) (de : DeviceEntry)
    (recs : List RecentEntry) (re : RecentEntry) (uds : List String) (id : String)
    (es : List LogEntry)
    (h1000 : uds.length ≤ 1000) (h11 : es.length = 11) :
    (logEventUpdate wlogs e).length ≤ 10 ∧ (logEventUpdate wlogs e).head? = some e ∧
    (deviceHistoryUpdate devs de).length ≤ 50 ∧
    (deviceHistoryUpdate devs de).head? = some de ∧
    (recentUpdate recs re).length ≤ 100 ∧ (recentUpdate recs re).head? = some re ∧
    (uniqueDevicesUpdate uds id).length ≤ 1000 ∧
    (es.foldl logEventUpdate []).length = 10 ∧
    es.foldl logEventUpdate [] = es.reverse.take 10 ∧
    (es.foldl logEventUpdate []).head? = es.getLast? := by
  have hf : es.foldl logEventUpdate [] = es.reverse.take 10 := by
    rw [foldl_logEventUpdate es [] (by simp), List.append_nil]
  refine ⟨?_, ?_, ?_, ?_, ?_, ?_, ?_, ?_, hf, ?_⟩
  · simp only [logEventUpdate]
    split
    · simp
    · omega
  · simp only [logEventUpdate]
    split
    · exact head?_capped e wlogs 10 (by omega)
    · rfl
  · simp only [deviceHistoryUpdate]
    split
    · simp
    · omega
  · simp only [deviceHistoryUpdate]
    split
    · exact head?_capped de devs 50 (by omega)
    · rfl
  · simp only [recentUpdate]
    split
    · simp
    · omega
  · simp only [recentUpdate]
    split
    · exact head?_capped re recs 100 (by omega)
    · rfl
  · simp only [uniqueDevicesUpdate]
    split
    · exact h1000
    · split
      · simp only [List.length_drop]
        omega
      · simp only [List.length_append] at *
        omega
  · rw [hf, List.length_take, List.length_reverse, h11]
    decide
  · rw [hf, ← List.head?_reverse]
    cases hrev : es.reverse with
    | nil => rfl
    | cons a t => rw [head?_capped a t 10 (by omega)]; rfl

/-- Witness for C5 as amended: concrete buffers at their caps and a
concrete run of 11 insertions into an empty webhook log. -/
theorem c5_ring_buffer_caps_witness :
    (logEventUpdate [] ⟨"T1", none, "ok", "m", none, none⟩).length ≤ 10 ∧
    (logEventUpdate [] ⟨"T1", none, "ok", "m", none, none⟩).head? =
      some ⟨"T1", none, "ok", "m", none, none⟩ ∧
    (deviceHistoryUpdate [] ⟨"open", "T1", ⟨[]⟩, "T1"⟩).length ≤ 50 ∧
    (uniqueDevicesUpdate ["devA"] "devB").length ≤ 1000 ∧
    ((List.range 11).map
        (fun i => (⟨toString i, none, "ok", "m", none, none⟩ : LogEntry))).foldl
      logEventUpdate [] =
      ((List.range 11).map
        (fun i => (⟨toString i, none, "ok", "m", none, none⟩ : LogEntry))).reverse.take
        10 := by
  have h := c5_ring_buffer_caps [] ⟨"T1", none, "ok", "m", none, none⟩
    [] ⟨"open", "T1", ⟨[]⟩, "T1"⟩ [] ⟨"open", "d...", "T1", "T1"⟩ ["devA"] "devB"
    ((List.range 11).map (fun i => (⟨toString i, none, "ok", "m", none, none⟩ : LogEntry)))
    (by decide) (by decide)
  exact ⟨h.1, h.2.1, h.2.2.1, h.2.2.2.2.2.2.1, h.2.2.2.2.2.2.2.2.1⟩

/-- Counterexample for C7: the provider's `execute` has no `try`/`catch`
around its outbound I/O, so a rejected `fetch` (network failure)
propagates out of `execute` instead of resolving with a
`{success, message}` result object. -/
theorem c7_counterexample :
    chatbotbuilderExecute (.error "TypeError: fetch failed") (.ok ())
      ⟨some "pass.updated", some ⟨none, some "SN1", none⟩⟩ ⟨"tok", "123", "456"⟩ =
      .error "TypeError: fetch failed" := by
  decide

/-- C7 as amended: a provider's `execute` resolves with a
`{success, message}` result object for every application-level outcome
(missing `passSerialNumber`, parsed find-response with missing or empty
user list, found user), but a rejected outbound `fetch` propagates as
an exception out of `execute`; the Dispatcher's background `catch`
contains it, writing a log entry of status `error` with message
`"Error en provider: ..."` while the sender still receives the 200
accepted response. -/
theorem c7_execute_outcomes
    (resp : CbFetchResp) (ud : CbUserData) (ev : EventData) (cfg : CbConfig)
    (hjson : resp.json = .ok ud)
    (hmac : String → String → List (Fin 256)) (now : String)
    (config : WebhookConfig) (bodyText : String) (ev2 : EventData) (emsg : String)
    (hverify : isVerifyEvent ev2 = false) (hactive : config.isActive = true)
    (hprov : getProviderExists (jsOrStr config.provider "chatbotbuilder") = true) :
    (∃ res, chatbotbuilderExecute (.ok resp) (.ok ()) ev cfg = .ok res) ∧
    (onRequestPost hmac now (some config) bodyText ev2
        (some ("sha1=" ++ hexEncode (hmac config.secretKey bodyText)))
        (.error emsg)).response = ⟨200, acceptedBody, some "application/json"⟩ ∧
    (onRequestPost hmac now (some config) bodyText ev2
        (some ("sha1=" ++ hexEncode (hmac config.secretKey bodyText)))
        (.error emsg)).logs =
      [⟨now, ev2.type, "error", "Error en provider: " ++ emsg,
        some (jsOrStr config.provider "chatbotbuilder"), none⟩] := by
  have hdg := sha1_append_ne_empty (hexEncode (hmac config.secretKey bodyText))
  refine ⟨?_, ?_⟩
  · simp only [chatbotbuilderExecute, hjson]
    split
    · exact ⟨_, rfl⟩
    · cases ud.data with
      | none => exact ⟨_, rfl⟩
      | some users =>
        cases users with
        | nil => exact ⟨_, rfl⟩
        | cons u t => exact ⟨_, rfl⟩
  · constructor <;>
      simp [onRequestPost, hverify, jsTruthy, jsStrOrEmpty,
        beq_eq_false_iff_ne.mpr hdg, hactive, hprov]

/-- Witness for C7 as amended: a concrete resolved find-response gives
a result object, and a concrete rejected execution is logged as
`error` while the response is the accepted 200. -/
theorem c7_execute_outcomes_witness :
    (∃ res, chatbotbuilderExecute (.ok ⟨.ok ⟨some [⟨"U1"⟩]⟩⟩) (.ok ())
        ⟨some "pass.updated", some ⟨none, some "SN1", none⟩⟩ ⟨"tok", "123", "456"⟩ =
        .ok res) ∧
    (onRequestPost (fun _ _ => [(171 : Fin 256)]) "T0"
        (some ⟨"Biz", "sk", none, none, none, none, true, none, none, none⟩)
        "body" ⟨some "pass.updated", none⟩ (some "sha1=ab")
        (.error "TypeError: fetch failed")).response =
      ⟨200, acceptedBody, some "application/json"⟩ ∧
    (onRequestPost (fun _ _ => [(171 : Fin 256)]) "T0"
        (some ⟨"Biz", "sk", none, none, none, none, true, none, none, none⟩)
        "body" ⟨some "pass.updated", none⟩ (some "sha1=ab")
        (.error "TypeError: fetch failed")).logs =
      [⟨"T0", some "pass.updated", "error", "Error en provider: TypeError: fetch failed",
        some "chatbotbuilder", none⟩] := by
  have h := c7_execute_outcomes ⟨.ok ⟨some [⟨"U1"⟩]⟩⟩ ⟨some [⟨"U1"⟩]⟩
    ⟨some "pass.updated", some ⟨none, some "SN1", none⟩⟩ ⟨"tok", "123", "456"⟩ rfl
    (fun _ _ => [(171 : Fin 256)]) "T0"
    ⟨"Biz", "sk", none, none, none, none, true, none, none, none⟩ "body"
    ⟨some "pass.updated", none⟩ "TypeError: fetch failed" (by decide) rfl (by decide)
  exact ⟨h.1, h.2.1, h.2.2⟩

/-- C8: an analytics POST whose body parses but lacks `eventName` or
lacks `deviceId` is answered 400 and performs no store writes: no
device-history, stats or recent-events value is written. -/
theorem c8_analytics_validation (now : String) (data : AnalyticsData)
    (dr : Option (List DeviceEntry)) (sr : Option AnalyticsStats)
    (rr : Option (List RecentEntry))
    (h : data.eventName = none ∨ data.deviceId = none) :
    (analyticsPost now (.ok data) dr sr rr).status = 400 ∧
    (analyticsPost now (.ok data) dr sr rr).deviceHistoryPut = none ∧
    (analyticsPost now (.ok data) dr sr rr).statsPut = none ∧
    (analyticsPost now (.ok data) dr sr rr).recentPut = none := by
  have hcond : (!jsTruthy data.eventName || !jsTruthy data.deviceId) = true := by
    rcases h with h | h <;> simp [h, jsTruthy]
  simp [analyticsPost, hcond]

/-- Witness for C8: a concrete body with an `eventName` but no
`deviceId` is rejected with 400 and no writes. -/
theorem c8_analytics_validation_witness :
    (analyticsPost "T0" (.ok ⟨some "open", none, none, none⟩) none none none).status =
      400 ∧
    (analyticsPost "T0"
        (.ok ⟨some "open", none, none, none⟩) none none none).deviceHistoryPut = none ∧
    (analyticsPost "T0"
        (.ok ⟨some "open", none, none, none⟩) none none none).statsPut = none ∧
    (analyticsPost "T0"
        (.ok ⟨some "open", none, none, none⟩) none none none).recentPut = none :=
  c8_analytics_validation "T0" ⟨some "open", none, none, none⟩ none none none
    (Or.inr rfl)

theorem jsSubstring_of_le (s : String) (n : Nat) (h : s.length ≤ n) :
    jsSubstring s n = s := by
  unfold jsSubstring
  rw [List.take_of_length_le (show s.toList.length ≤ n from h)]
  rfl

/-- C10: the device-id redaction takes the first 8 characters and
appends `"..."`, so for a device id of length at most 8 the
"partially redacted" id — returned in the acknowledgment body and
stored at the head of the global recent-events list — is the whole
device id followed by `"..."`. -/
theorem c10_short_device_id_redaction (now : String) (data : AnalyticsData)
    (did : String) (dr : Option (List DeviceEntry)) (sr : Option AnalyticsStats)
    (rr : Option (List RecentEntry))
    (hdid : data.deviceId = some did) (hne : did ≠ "")
    (hen : jsTruthy data.eventName = true) (hlen : did.length ≤ 8) :
    (analyticsPost now (.ok data) dr sr rr).body.deviceId = some (did ++ "...") ∧
    ((analyticsPost now (.ok data) dr sr rr).recentPut.getD []).head? =
      some ⟨jsStrOrEmpty data.eventName, did ++ "...", jsOrStr data.timestamp now, now⟩ := by
  have hcond : (!jsTruthy data.eventName || !jsTruthy data.deviceId) = false := by
    rw [hen, hdid]
    simp [jsTruthy, hne]
  have hsub : jsSubstring (jsStrOrEmpty data.deviceId) 8 = did := by
    rw [hdid]
    exact jsSubstring_of_le did 8 hlen
  have hhead : ∀ (l : List RecentEntry) (x : RecentEntry),
      (recentUpdate l x).head? = some x := by
    intro l x
    simp only [recentUpdate]
    split
    · exact head?_capped x l 100 (by omega)
    · rfl
  refine ⟨?_, ?_⟩
  · simp [analyticsPost, hcond, hsub]
  · simp [analyticsPost, hcond, hsub, hhead]

/-- Witness for C10: the 5-character device id `"dev42"` is
"redacted" to `"dev42..."`, hiding nothing. -/
theorem c10_short_device_id_redaction_witness :
    (analyticsPost "T0" (.ok ⟨some "open", some "dev42", some "TS", none⟩)
        none none none).body.deviceId = some ("dev42" ++ "...") ∧
    ((analyticsPost "T0" (.ok ⟨some "open", some "dev42", some "TS", none⟩)
        none none none).recentPut.getD []).head? =
      some ⟨"open", "dev42" ++ "...", "TS", "T0"⟩ := by
  have h := c10_short_device_id_redaction "T0" ⟨some "open", some "dev42", some "TS", none⟩
    "dev42" none none none rfl (by decide) (by decide) (by decide)
  exact ⟨h.1, h.2⟩

theorem scanEqList_eq (as bs : List Char) : scanEqList as bs = true ↔ as = bs := by
  induction as generalizing bs with
  | nil => cases bs <;> simp [scanEqList]
  | cons a as ih => cases bs <;> simp [scanEqList, ih]

theorem jsStrEqModel_correct (a b : String) : jsStrEqModel a b = true ↔ a = b := by
  unfold jsStrEqModel
  rw [Bool.and_eq_true, scanEqList_eq]
  constructor
  · rintro ⟨-, h2⟩
    exact String.ext h2
  · rintro rfl
    exact ⟨by simp, rfl⟩

/-- C4 (not satisfied by the code): the source compares the supplied
header to the computed digest with a plain `!==`, whose canonical
sequential evaluation (`jsStrEqModel` / `jsStrEqSteps`) short-circuits
at the first differing character; two rejected signatures of equal
length can take a different number of character comparisons (6 when
the first hex character differs versus 13 when only the last one
does), so the comparison time depends on the position of the first
difference — it is not a constant-time comparison. -/
theorem c4_comparison_not_constant_time :
    jsStrEqModel "sha1=00000000" "sha1=ffffffff" = false ∧
    jsStrEqModel "sha1=0000000f" "sha1=00000000" = false ∧
    jsStrEqSteps "sha1=00000000" "sha1=ffffffff" = 6 ∧
    jsStrEqSteps "sha1=0000000f" "sha1=00000000" = 13 ∧
    jsStrEqSteps "sha1=00000000" "sha1=ffffffff" ≠
      jsStrEqSteps "sha1=0000000f" "sha1=00000000" := by
  decide
